import Mathlib

/-!
Shallow embedding of the SIO2Arduino disk-image core (src/disk_image.cpp).

The repository's header files (disk_image.h, config.h) are not part of src/;
the constants and struct field offsets they define are modelled from the spec
and carry a doc comment saying so.  Everything else is translated directly
from disk_image.cpp.
-/

namespace SIO2Arduino

/-- A backing file handle: total size in bytes, byte content as a function
(reads beyond the end simply return whatever the function says, mirroring
SdFile.read), and the filename as a list of ASCII codes. -/
structure SdFile where
  size : Nat
  byteAt : Nat → Nat
  filename : List Nat

/-- Image container kinds (the TYPE_ATR .. TYPE_XFD byte constants of
disk_image.h, represented as an enumeration). -/
inductive ImageType
  | ATR
  | PRO
  | ATX
  | XFD
deriving DecidableEq

/-- One entry of the ATX sector index (m_sectorHeaders[i] in disk_image.cpp):
logical sector number, raw status byte, absolute file offset of the payload. -/
structure AtxSectorHeader where
  sectorNumber : Nat
  sstatus : Nat
  fileIndex : Nat
deriving DecidableEq

/-- Drive-controller status frame: hardware status byte, command status byte
and timeout LSB byte, as surfaced in m_sectorBuffer.statusFrame. -/
structure StatusFrame where
  hardwareStatus : Nat
  commandStatus : Nat
  timeout_lsb : Nat
deriving DecidableEq

/-- The mutable state of a DiskImage instance.  m_sectorHeaders is modelled as
a total function from slot index to entry (the C array has 720 slots; the
function model also removes the out-of-bounds-write undefined behaviour that
the claims do not touch). -/
structure DiskImage where
  fileRef : Option SdFile
  fileSize : Nat
  type : ImageType
  headerSize : Nat
  sectorSize : Nat
  readOnly : Bool
  sectorReadDelay : Nat
  usePhantoms : Bool
  phantomFlip : Bool
  sectorHeaders : Nat → AtxSectorHeader

/-- Modelled from the spec: ATR_SIGNATURE (config header, not in src/); the
spec's example gives the signature bytes 0x96 0x02, read as a little-endian
16-bit word on the AVR target. -/
def ATR_SIGNATURE : Nat := 0x0296

/-- Modelled from the spec: SECTOR_SIZE_SD, the single-density sector size
(the spec fixes PRO and XFD sector size at 128). -/
def SECTOR_SIZE_SD : Nat := 128

/-- Modelled from the spec: size of a single-sided single-density 40-track
image body, 720 sectors of 128 bytes. -/
def FORMAT_SS_SD_40 : Nat := 92160

/-- Modelled from the spec: single-sided enhanced-density 35-track reference
size (910 sectors of 128 bytes). -/
def FORMAT_SS_ED_35 : Nat := 116480

/-- Modelled from the spec: single-sided enhanced-density 40-track reference
size (1040 sectors of 128 bytes). -/
def FORMAT_SS_ED_40 : Nat := 133120

/-- Modelled from the spec: single-sided double-density 35-track reference
size (630 sectors of 256 bytes). -/
def FORMAT_SS_DD_35 : Nat := 161280

/-- Modelled from the spec: single-sided double-density 40-track reference
size (720 sectors of 256 bytes). -/
def FORMAT_SS_DD_40 : Nat := 184320

/-- Modelled from the spec: the DENSITY_ED density selector code passed to
format (config header, not in src/). -/
def DENSITY_ED : Nat := 1

/-- Modelled from the spec: sizeof(PROSectorHeader), the fixed per-sector
header width of the PRO format (12 bytes: a 4-byte status frame followed by
phantom bookkeeping). -/
def proSectorHeaderSize : Nat := 12

/-- Little-endian 16-bit decode, as done by the AVR struct overlay casts. -/
def decode16 (b0 b1 : Nat) : Nat := b0 + b1 * 256

/-- The 4-byte decode the ATX loader actually performs:
read() + read()*256 + read()*512 + read()*768 (disk_image.cpp lines 269,
278-281, 298-301, 324-327). -/
def decode32quirk (b0 b1 b2 b3 : Nat) : Nat :=
  b0 + b1 * 256 + b2 * 512 + b3 * 768

/-- The spec's reading of those fields, for comparison: a genuine 4-byte
little-endian integer byte0 + byte1*2^8 + byte2*2^16 + byte3*2^24. -/
def specDecode32le (b0 b1 b2 b3 : Nat) : Nat :=
  b0 + b1 * 256 + b2 * 65536 + b3 * 16777216

/-- ATR detection: the first two header bytes, read as a little-endian 16-bit
word, equal ATR_SIGNATURE (disk_image.cpp line 202). -/
def atrSigMatch (f : SdFile) : Bool :=
  decode16 (f.byteAt 0) (f.byteAt 1) == ATR_SIGNATURE

/-- Modelled from the spec: the ATR header's declared sector size is a
little-endian 16-bit field; its offset (bytes 4-5) follows the standard ATR
header layout (signature 0-1, pars 2-3, secSize 4-5) since disk_image.h is
not in src/. -/
def atrSecSize (f : SdFile) : Nat :=
  decode16 (f.byteAt 4) (f.byteAt 5)

/-- PRO detection (disk_image.cpp line 218):
sectorCountHi*256 + sectorCountLo == (m_fileSize-16)/(128+12) and magic=='P'.
Modelled from the spec: the PROFileHeader field offsets (sectorCountHi at
byte 0, sectorCountLo at byte 1, magic at byte 2) since disk_image.h is not
in src/.  m_fileSize is a 32-bit unsigned long on the target, so the
subtraction is performed modulo 2^32 (it underflows for files shorter than
16 bytes). -/
def proConsistency (fileSize : Nat) (f : SdFile) : Bool :=
  (f.byteAt 0 * 256 + f.byteAt 1 ==
    ((fileSize + (4294967296 - 16)) % 4294967296) /
      (SECTOR_SIZE_SD + proSectorHeaderSize)) &&
  (f.byteAt 2 == 80)

/-- ATX detection: the first four bytes are the ASCII codes of A, T, 8, X
(disk_image.cpp line 251). -/
def atxSigMatch (f : SdFile) : Bool :=
  (f.byteAt 0 == 65) && (f.byteAt 1 == 84) && (f.byteAt 2 == 56) &&
    (f.byteAt 3 == 88)

/-- XFD detection (disk_image.cpp line 348): the last four filename bytes
compare equal, byte for byte (strcmp), to ".XFD" or to ".xfd", and m_fileSize
equals FORMAT_SS_SD_40.  The length guard reflects that the C code points
strcmp at filename+len-4. -/
def xfdCheck (fileSize : Nat) (f : SdFile) : Bool :=
  (decide (4 ≤ f.filename.length) &&
    (f.filename.drop (f.filename.length - 4) == [46, 88, 70, 68] ||
     f.filename.drop (f.filename.length - 4) == [46, 120, 102, 100])) &&
  (fileSize == FORMAT_SS_SD_40)

/-- ASCII lower-casing of one byte, used only to state the spec's
case-insensitive extension comparison. -/
def asciiToLower (c : Nat) : Nat :=
  if 65 ≤ c ∧ c ≤ 90 then c + 32 else c

/-- The phantom-mode switch of the PRO loader (disk_image.cpp lines 226-242).
Modelled from the spec: the seven PSM_* enum values (disk_image.h is not in
src/) are taken in the spec's order, the five no-phantom variants as 0..4,
GLOBAL_FLIP_FLOP as 5, GLOBAL_FLOP_FLIP as 6.  The C switch has no default
case, so any other mode byte leaves both fields unchanged.  Returns
(usePhantoms, phantomFlip). -/
def proPhantomMode (st : DiskImage) (m : Nat) : Bool × Bool :=
  if m ≤ 4 then (false, st.phantomFlip)
  else if m = 5 then (true, false)
  else if m = 6 then (true, true)
  else (st.usePhantoms, st.phantomFlip)

/-- State produced by a successful PRO detection (disk_image.cpp lines
219-242).  sectorReadDelay is the header's delay byte times 1000/60 (integer
division, = 16); the delay byte's offset (5) and the phantom-mode byte's
offset (4) are modelled from the spec since disk_image.h is not in src/. -/
def proLoad (st : DiskImage) (f : SdFile) : DiskImage :=
  { st with
    type := ImageType.PRO
    readOnly := true
    headerSize := 16
    sectorSize := SECTOR_SIZE_SD
    sectorReadDelay := f.byteAt 5 * (1000 / 60)
    usePhantoms := (proPhantomMode st (f.byteAt 4)).1
    phantomFlip := (proPhantomMode st (f.byteAt 4)).2 }

/-- The initial ATX index fill (disk_image.cpp lines 263-265): each of the
720 slots gets the impossibly-high sentinel sector number 60000; the other
two fields are not written there. -/
def atxInit (st : DiskImage) : Nat → AtxSectorHeader := fun i =>
  if i < 720 then { st.sectorHeaders i with sectorNumber := 60000 }
  else st.sectorHeaders i

/-- Pointwise update of the sector-index table. -/
def updTbl (tbl : Nat → AtxSectorHeader) (k : Nat) (e : AtxSectorHeader) :
    Nat → AtxSectorHeader :=
  fun i => if i = k then e else tbl i

/-- The ATX per-track sector-list loop (disk_image.cpp lines 317-331).
Each entry is 8 bytes at position pos: sector number, status byte, two
skipped bytes, then the 4-byte start-offset field decoded with
decode32quirk.  Slot trackNumber*18+i2 receives the logical sector number
trackNumber*18 + sectorNum - 1, the status byte and the absolute offset
trackStart + startOffset. -/
def parseSectorList (f : SdFile) (trackStart trackNumber : Nat) :
    Nat → Nat → Nat → (Nat → AtxSectorHeader) → (Nat → AtxSectorHeader)
  | 0, _, _, tbl => tbl
  | k + 1, i2, pos, tbl =>
    let sectorNum := f.byteAt pos
    let sectorStatus := f.byteAt (pos + 1)
    let startOffset := decode32quirk (f.byteAt (pos + 4)) (f.byteAt (pos + 5))
      (f.byteAt (pos + 6)) (f.byteAt (pos + 7))
    parseSectorList f trackStart trackNumber k (i2 + 1) (pos + 8)
      (updTbl tbl (trackNumber * 18 + i2)
        { sectorNumber := trackNumber * 18 + sectorNum - 1
          sstatus := sectorStatus
          fileIndex := trackStart + startOffset })

/-- The ATX track-record loop (disk_image.cpp lines 276-336).  At each track
record (position fileIndex): bytes 0-3 give the record size (decode32quirk),
byte 8 the track number, bytes 10-11 the sector count (little-endian 16-bit),
bytes 20-23 the sector-list offset (decode32quirk); the sector list proper
starts 8 bytes after that offset (the skipped sector-list header).  Then the
position advances by the record size. -/
def parseTracks (f : SdFile) :
    Nat → Nat → (Nat → AtxSectorHeader) → (Nat → AtxSectorHeader)
  | 0, _, tbl => tbl
  | n + 1, fileIndex, tbl =>
    let trackRecordSize := decode32quirk (f.byteAt fileIndex)
      (f.byteAt (fileIndex + 1)) (f.byteAt (fileIndex + 2))
      (f.byteAt (fileIndex + 3))
    let trackNumber := f.byteAt (fileIndex + 8)
    let sectorCount := decode16 (f.byteAt (fileIndex + 10))
      (f.byteAt (fileIndex + 11))
    let listOffset := decode32quirk (f.byteAt (fileIndex + 20))
      (f.byteAt (fileIndex + 21)) (f.byteAt (fileIndex + 22))
      (f.byteAt (fileIndex + 23))
    parseTracks f n (fileIndex + trackRecordSize)
      (parseSectorList f fileIndex trackNumber sectorCount 0
        (fileIndex + listOffset + 8) tbl)

/-- The track-directory location read at file byte 28 (disk_image.cpp lines
268-269): four sequential byte reads combined with decode32quirk. -/
def atxDirectoryLocation (f : SdFile) : Nat :=
  decode32quirk (f.byteAt 28) (f.byteAt 29) (f.byteAt 30) (f.byteAt 31)

/-- State produced by a successful ATX detection (disk_image.cpp lines
251-339).  Note that headerSize is not assigned in this branch. -/
def atxLoad (st : DiskImage) (f : SdFile) : DiskImage :=
  { st with
    type := ImageType.ATX
    readOnly := true
    sectorReadDelay := 0
    sectorSize := 128
    phantomFlip := false
    sectorHeaders := parseTracks f 40 (atxDirectoryLocation f) (atxInit st) }

/-- DiskImage::loadFile (disk_image.cpp lines 187-361): try ATR, then PRO,
then ATX, then XFD, returning the updated state on the first match and none
when nothing matches (in which case no field is assigned). -/
def loadFile (st : DiskImage) (f : SdFile) : Option DiskImage :=
  if atrSigMatch f then
    some { st with
      type := ImageType.ATR
      headerSize := 16
      readOnly := false
      sectorSize := atrSecSize f
      sectorReadDelay := 0 }
  else if proConsistency st.fileSize f then
    some (proLoad st f)
  else if atxSigMatch f then
    some (atxLoad st f)
  else if xfdCheck st.fileSize f then
    some { st with
      type := ImageType.XFD
      readOnly := false
      headerSize := 0
      sectorSize := SECTOR_SIZE_SD
      sectorReadDelay := 0 }
  else
    none

/-- DiskImage::setFile (disk_image.cpp lines 30-41): store the handle and the
file size, then run detection; on failure only the handle is reset to NULL. -/
def setFile (st : DiskImage) (f : SdFile) : DiskImage :=
  let st1 := { st with fileRef := some f, fileSize := f.size }
  match loadFile st1 f with
  | some st2 => st2
  | none => { st1 with fileRef := none }

/-- DiskImage::hasImage (disk_image.cpp line 363). -/
def hasImage (st : DiskImage) : Bool := st.fileRef.isSome

/-- The container kind detection assigns to a file, if any. -/
def detectedType (st : DiskImage) (f : SdFile) : Option ImageType :=
  (loadFile st f).map DiskImage.type

/-- DiskImage::isEnhancedDensity (disk_image.cpp line 371). -/
def isEnhancedDensity (st : DiskImage) : Bool :=
  (st.fileSize == FORMAT_SS_ED_35 + st.headerSize) ||
    (st.fileSize == FORMAT_SS_ED_40 + st.headerSize)

/-- DiskImage::isDoubleDensity (disk_image.cpp line 375). -/
def isDoubleDensity (st : DiskImage) : Bool :=
  (st.fileSize == FORMAT_SS_DD_35 + st.headerSize) ||
    (st.fileSize == FORMAT_SS_DD_40 + st.headerSize)

/-- DiskImage::isReadOnly (disk_image.cpp line 379). -/
def isReadOnly (st : DiskImage) : Bool := st.readOnly

/-- DiskImage::hasCopyProtection (disk_image.cpp line 367). -/
def hasCopyProtection (st : DiskImage) : Bool :=
  decide (st.type = ImageType.PRO) || decide (st.type = ImageType.ATX)

/-- A concrete empty DiskImage used by witnesses: freshly constructed, no
handle attached. -/
def emptyDisk : DiskImage :=
  { fileRef := none
    fileSize := 0
    type := ImageType.ATR
    headerSize := 0
    sectorSize := 0
    readOnly := false
    sectorReadDelay := 0
    usePhantoms := false
    phantomFlip := false
    sectorHeaders := fun _ => { sectorNumber := 0, sstatus := 0, fileIndex := 0 } }

/-- A concrete zero-filled, unnamed, empty file used by witnesses. -/
def emptyFile : SdFile :=
  { size := 0, byteAt := fun _ => 0, filename := [] }

/-- The result object of a sector read (SectorPacket, filled by
getSectorData).  data is the list of bytes the final read loop fetches. -/
structure SectorPacket where
  length : Nat
  error : Bool
  validStatusFrame : Bool
  statusFrame : StatusFrame
  data : List Nat
deriving DecidableEq

/-- The n bytes of f starting at offset off, as read by the final loop of
getSectorData. -/
def readBytes (f : SdFile) (off n : Nat) : List Nat :=
  (List.range n).map fun i => f.byteAt (off + i)

/-- Bitwise complement of a status byte (the cast-to-byte of the C ~
operator). -/
def byteNot (b : Nat) : Nat := 255 - b % 256

/-- Modelled from the spec: the three active-low hardware-status flags of the
PRO per-sector header's first byte (crcError, dataLostOrTrack0,
recordNotFound are bit fields of disk_image.h, not in src/); the chosen bit
positions follow the FDC status-register convention.  A set bit means "no
error". -/
def proCrcError (hs : Nat) : Bool := hs.testBit 3

/-- Modelled from the spec: see proCrcError. -/
def proDataLostOrTrack0 (hs : Nat) : Bool := hs.testBit 2

/-- Modelled from the spec: see proCrcError. -/
def proRecordNotFound (hs : Nat) : Bool := hs.testBit 4

/-- The ATX index search loop (disk_image.cpp lines 85-93): scan the given
slot indices; on a match record the slot and, when phantomFlip is clear,
break immediately — so the result is the first match when phantomFlip is
false and the last match when it is true. -/
def atxFindAux (p : Nat → Bool) (flip : Bool) :
    List Nat → Option Nat → Option Nat
  | [], acc => acc
  | i :: rest, acc =>
    if p i then
      if flip then atxFindAux p flip rest (some i) else some i
    else atxFindAux p flip rest acc

/-- The ATX index search over all 720 slots for logical sector number
sector - 1. -/
def atxFind (st : DiskImage) (sector : Nat) : Option Nat :=
  atxFindAux (fun i => (st.sectorHeaders i).sectorNumber == sector - 1)
    st.phantomFlip (List.range 720) none

/-- DiskImage::getSectorData (disk_image.cpp lines 54-134), returning the
filled SectorPacket together with the updated instance state (the only
instance field a read mutates is phantomFlip; the scratch member buffers
m_proSectorHeader / m_sectorBuffer are modelled by the returned packet, and
the stale bytes the ATR/XFD path leaves in the member status frame are
represented by a zero frame under validStatusFrame = false).

PRO path: seek to headerSize + (sector-1)*(sectorSize+12), read the 12-byte
sector header (the first three of its bytes are memcpy'd into the status
frame), flag an error if any of the three active-low status flags is clear,
otherwise redirect to the phantom slot 720 + phantom1 when phantoms are in
use, the header lists any and phantomFlip is set; then flip phantomFlip and
read sectorSize bytes from the current position.  The totalPhantoms byte (4)
and phantom1 byte (5) offsets within the sector header are modelled from the
spec since disk_image.h is not in src/.

ATX path: search the index; on a hit read at the recorded offset, error iff
the recorded status byte is nonzero, hardware status = complemented status
byte, command status 0x10, timeout 0xE0; on a miss seek to 0, error, and the
fixed frame 0xF7/0x10/0xE0; then flip phantomFlip.

ATR/XFD path: plain seek to headerSize + (sector-1)*sectorSize. -/
def getSectorData (st : DiskImage) (f : SdFile) (sector : Nat) :
    SectorPacket × DiskImage :=
  if st.type = ImageType.PRO then
    let base := st.headerSize + (sector - 1) * (st.sectorSize + proSectorHeaderSize)
    let hs := f.byteAt base
    let frame : StatusFrame :=
      { hardwareStatus := f.byteAt base
        commandStatus := f.byteAt (base + 1)
        timeout_lsb := f.byteAt (base + 2) }
    let err := !(proCrcError hs && proDataLostOrTrack0 hs && proRecordNotFound hs)
    let dataOff :=
      if err then base + proSectorHeaderSize
      else if st.usePhantoms && decide (0 < f.byteAt (base + 4)) && st.phantomFlip then
        st.headerSize +
          (720 + f.byteAt (base + 5) - 1) * (st.sectorSize + proSectorHeaderSize) +
          proSectorHeaderSize
      else base + proSectorHeaderSize
    ({ length := st.sectorSize
       error := err
       validStatusFrame := true
       statusFrame := frame
       data := readBytes f dataOff st.sectorSize },
     { st with phantomFlip := !st.phantomFlip })
  else if st.type = ImageType.ATX then
    match atxFind st sector with
    | some i =>
      ({ length := st.sectorSize
         error := decide (0 < (st.sectorHeaders i).sstatus)
         validStatusFrame := true
         statusFrame :=
           { hardwareStatus := byteNot (st.sectorHeaders i).sstatus
             commandStatus := 0x10
             timeout_lsb := 0xE0 }
         data := readBytes f (st.sectorHeaders i).fileIndex st.sectorSize },
       { st with phantomFlip := !st.phantomFlip })
    | none =>
      ({ length := st.sectorSize
         error := true
         validStatusFrame := true
         statusFrame :=
           { hardwareStatus := 0xF7, commandStatus := 0x10, timeout_lsb := 0xE0 }
         data := readBytes f 0 st.sectorSize },
       { st with phantomFlip := !st.phantomFlip })
  else
    ({ length := st.sectorSize
       error := false
       validStatusFrame := false
       statusFrame := { hardwareStatus := 0, commandStatus := 0, timeout_lsb := 0 }
       data := readBytes f (st.headerSize + (sector - 1) * st.sectorSize) st.sectorSize },
     st)

/-- Overwrite len bytes of f starting at offset off with src 0 .. src (len-1)
(SdFile.write; the file grows when the write runs past its end). -/
def fileWrite (f : SdFile) (off : Nat) (src : Nat → Nat) (len : Nat) : SdFile :=
  { f with
    size := max f.size (off + len)
    byteAt := fun i => if off ≤ i ∧ i < off + len then src (i - off) else f.byteAt i }

/-- DiskImage::writeSectorData (disk_image.cpp lines 139-150): on a writable
image seek to headerSize + (sector-1)*sectorSize and write len bytes,
returning the byte count; on a read-only image do nothing and return 0
(the C `return false`). -/
def writeSectorData (st : DiskImage) (f : SdFile) (sector : Nat)
    (data : Nat → Nat) (len : Nat) : Nat × SdFile :=
  if st.readOnly then (0, f)
  else (len, fileWrite f (st.headerSize + (sector - 1) * st.sectorSize) data len)

/-- The 16 ATR header bytes DiskImage::format writes (disk_image.cpp lines
168-173): a zeroed header, then signature = ATR_SIGNATURE, pars = length/16,
secSize = SECTOR_SIZE_SD.  Modelled from the spec: the field offsets
(signature at bytes 0-1, pars at 2-3, secSize at 4-5, little-endian) follow
the standard ATR header layout since disk_image.h is not in src/. -/
def atrFormatHeaderByte (length : Nat) : Nat → Nat := fun i =>
  if i = 0 then 150
  else if i = 1 then 2
  else if i = 2 then length / 16 % 256
  else if i = 3 then length / 16 / 256 % 256
  else if i = 4 then SECTOR_SIZE_SD % 256
  else if i = 5 then SECTOR_SIZE_SD / 256
  else 0

/-- DiskImage::format (disk_image.cpp lines 155-185): rejected on a read-only
image; otherwise pick the body length from the requested density, seek to 0,
write the fresh ATR header when the image is an ATR, then write a zero-filled
body of that length.  Returns the resulting file content. -/
def format (st : DiskImage) (f : SdFile) (density : Nat) : Option SdFile :=
  if st.readOnly then none
  else
    let length := if density = DENSITY_ED then FORMAT_SS_ED_40 else FORMAT_SS_SD_40
    let f1 := if st.type = ImageType.ATR then
        fileWrite f 0 (atrFormatHeaderByte length) 16
      else f
    let off := if st.type = ImageType.ATR then 16 else 0
    some (fileWrite f1 off (fun _ => 0) length)

/-- A concrete ATR file: signature bytes 0x96 0x02 and declared sector size
128 at header bytes 4-5. -/
def atrFileC : SdFile :=
  { size := 92176
    byteAt := fun i => if i = 0 then 150 else if i = 1 then 2 else if i = 4 then 128 else 0
    filename := [] }

/-- A concrete PRO file: declared sector count 1, magic 'P', phantom mode
GLOBAL_FLIP_FLOP, size 16 + 1*(128+12). -/
def proFileC : SdFile :=
  { size := 156
    byteAt := fun i => if i = 1 then 1 else if i = 2 then 80 else if i = 4 then 5 else 0
    filename := [] }

/-- A file that matches the ATR signature and at the same time passes the PRO
consistency cross-check: bytes 0x96 0x02 'P', declared PRO sector count
0x96*256 + 0x02 = 38402, and size 16 + 38402*140. -/
def c1File : SdFile :=
  { size := 5376296
    byteAt := fun i => if i = 0 then 150 else if i = 1 then 2 else if i = 2 then 80 else 0
    filename := [] }

/-- If no element of the scanned list satisfies the predicate, the ATX index
search loop returns its accumulator unchanged. -/
theorem atxFindAux_none (p : Nat → Bool) (flip : Bool) (l : List Nat)
    (h : ∀ i ∈ l, p i = false) : atxFindAux p flip l none = none := by
  induction l with
  | nil => rfl
  | cons a t ih =>
    have ha : p a = false := h a (by simp)
    simp only [atxFindAux, ha, Bool.false_eq_true, if_false]
    exact ih fun i hi => h i (by simp [hi])

/-- Detection yields PRO exactly when the ATR signature fails and the PRO
consistency check passes. -/
theorem detectedPRO_iff (st : DiskImage) (f : SdFile) :
    detectedType st f = some ImageType.PRO ↔
      atrSigMatch f = false ∧ proConsistency st.fileSize f = true := by
  by_cases hA : atrSigMatch f
  · simp [detectedType, loadFile, hA]
  · by_cases hP : proConsistency st.fileSize f
    · simp [detectedType, loadFile, hA, hP, proLoad]
    · by_cases hX : atxSigMatch f
      · simp [detectedType, loadFile, hA, hP, hX, atxLoad]
      · by_cases hF : xfdCheck st.fileSize f <;>
          simp [detectedType, loadFile, hA, hP, hX, hF]

/-- Detection yields XFD exactly when all three earlier checks fail and the
XFD filename/size check passes. -/
theorem detectedXFD_iff (st : DiskImage) (f : SdFile) :
    detectedType st f = some ImageType.XFD ↔
      atrSigMatch f = false ∧ proConsistency st.fileSize f = false ∧
        atxSigMatch f = false ∧ xfdCheck st.fileSize f = true := by
  by_cases hA : atrSigMatch f
  · simp [detectedType, loadFile, hA]
  · by_cases hP : proConsistency st.fileSize f
    · simp [detectedType, loadFile, hA, hP, proLoad]
    · by_cases hX : atxSigMatch f
      · simp [detectedType, loadFile, hA, hP, hX, atxLoad]
      · by_cases hF : xfdCheck st.fileSize f <;>
          simp [detectedType, loadFile, hA, hP, hX, hF]

/-- C2: format detection is deterministic and ordered ATR, then PRO, then
ATX, then XFD, stopping at the first match; in particular any file whose
first two header bytes match the ATR signature is classified ATR no matter
what the later checks would say. -/
theorem c2_detection_order (st : DiskImage) (f : SdFile) :
    (atrSigMatch f = true → detectedType st f = some ImageType.ATR) ∧
    (atrSigMatch f = false → proConsistency st.fileSize f = true →
      detectedType st f = some ImageType.PRO) ∧
    (atrSigMatch f = false → proConsistency st.fileSize f = false →
      atxSigMatch f = true → detectedType st f = some ImageType.ATX) ∧
    (atrSigMatch f = false → proConsistency st.fileSize f = false →
      atxSigMatch f = false → xfdCheck st.fileSize f = true →
      detectedType st f = some ImageType.XFD) := by
  refine ⟨fun h1 => ?_, fun h1 h2 => ?_, fun h1 h2 h3 => ?_, fun h1 h2 h3 h4 => ?_⟩ <;>
    simp [detectedType, loadFile, proLoad, atxLoad, h1, *]

/-- C2 witness: a file that matches the ATR signature and would also pass
the PRO cross-check is classified ATR. -/
theorem c2_detection_order_witness :
    proConsistency c1File.size c1File = true ∧
      detectedType { emptyDisk with fileSize := c1File.size } c1File =
        some ImageType.ATR :=
  ⟨rfl, (c2_detection_order { emptyDisk with fileSize := c1File.size } c1File).1 rfl⟩

/-- C3: a readSector call inverts phantomFlip exactly once when the image
kind is PRO or ATX, whatever branch is taken inside the call, and leaves it
unchanged when the kind is ATR or XFD. -/
theorem c3_phantomFlip_toggle (st : DiskImage) (f : SdFile) (sector : Nat) :
    ((st.type = ImageType.PRO ∨ st.type = ImageType.ATX) →
      (getSectorData st f sector).2.phantomFlip = !st.phantomFlip) ∧
    ((st.type = ImageType.ATR ∨ st.type = ImageType.XFD) →
      (getSectorData st f sector).2.phantomFlip = st.phantomFlip) := by
  constructor
  · rintro (h | h)
    · simp [getSectorData, h]
    · cases hA : atxFind st sector <;> simp [getSectorData, h, hA]
  · rintro (h | h) <;> simp [getSectorData, h]

/-- A concrete ready PRO-image state. -/
def proStC : DiskImage := { emptyDisk with type := ImageType.PRO }

/-- C3 witness: the flip toggles on a concrete PRO read and stays put on a
concrete ATR read. -/
theorem c3_phantomFlip_toggle_witness :
    (getSectorData proStC emptyFile 1).2.phantomFlip = !proStC.phantomFlip ∧
      (getSectorData emptyDisk emptyFile 1).2.phantomFlip = emptyDisk.phantomFlip :=
  ⟨(c3_phantomFlip_toggle proStC emptyFile 1).1 (Or.inl rfl),
   (c3_phantomFlip_toggle emptyDisk emptyFile 1).2 (Or.inl rfl)⟩

/-- C5: on an ATX image, a readSector call whose logical sector matches no
index slot produces error = true and exactly the fixed missing-sector status
frame hardwareStatus 0xF7, commandStatus 0x10, timeout 0xE0. -/
theorem c5_atx_missing_sector (st : DiskImage) (f : SdFile) (sector : Nat)
    (hT : st.type = ImageType.ATX)
    (hM : ∀ i, i < 720 → (st.sectorHeaders i).sectorNumber ≠ sector - 1) :
    (getSectorData st f sector).1.error = true ∧
    (getSectorData st f sector).1.validStatusFrame = true ∧
    (getSectorData st f sector).1.statusFrame =
      { hardwareStatus := 0xF7, commandStatus := 0x10, timeout_lsb := 0xE0 } := by
  have hfind : atxFind st sector = none := by
    apply atxFindAux_none
    intro i hi
    rw [List.mem_range] at hi
    exact beq_eq_false_iff_ne.mpr (hM i hi)
  simp [getSectorData, hT, hfind]

/-- A concrete ready ATX-image state whose index is entirely unpopulated
(every slot holds the sentinel sector number 60000). -/
def atxStC : DiskImage :=
  { emptyDisk with
    type := ImageType.ATX
    sectorHeaders := fun _ => { sectorNumber := 60000, sstatus := 0, fileIndex := 0 } }

/-- C5 witness: reading sector 1 from the all-sentinel ATX index. -/
theorem c5_atx_missing_sector_witness :
    (getSectorData atxStC emptyFile 1).1.error = true ∧
    (getSectorData atxStC emptyFile 1).1.validStatusFrame = true ∧
    (getSectorData atxStC emptyFile 1).1.statusFrame =
      { hardwareStatus := 0xF7, commandStatus := 0x10, timeout_lsb := 0xE0 } :=
  c5_atx_missing_sector atxStC emptyFile 1 rfl (fun i _ => by simp [atxStC])

/-- C7: writeSector on any image whose detection produced a PRO or an ATX
state (both are loaded read-only) returns 0 bytes written and leaves the
backing file untouched. -/
theorem c7_readonly_write_noop (st0 st : DiskImage) (f0 f : SdFile)
    (sector len : Nat) (data : Nat → Nat)
    (hL : loadFile st0 f0 = some st)
    (hT : st.type = ImageType.PRO ∨ st.type = ImageType.ATX) :
    writeSectorData st f sector data len = (0, f) := by
  have hRO : st.readOnly = true := by
    unfold loadFile at hL
    split_ifs at hL
    · rw [Option.some.injEq] at hL; subst hL; simp at hT
    · rw [Option.some.injEq] at hL; subst hL; rfl
    · rw [Option.some.injEq] at hL; subst hL; rfl
    · rw [Option.some.injEq] at hL; subst hL; simp at hT
  simp [writeSectorData, hRO]

/-- A pre-attach state carrying the size of the concrete PRO file. -/
def c7St : DiskImage := { emptyDisk with fileSize := 156 }

/-- C7 witness: writing to the freshly loaded concrete PRO image is a no-op
returning 0. -/
theorem c7_readonly_write_noop_witness :
    writeSectorData (proLoad c7St proFileC) emptyFile 1 (fun _ => 0) 128 =
      (0, emptyFile) :=
  c7_readonly_write_noop c7St (proLoad c7St proFileC) proFileC emptyFile 1 128
    (fun _ => 0) rfl (Or.inl rfl)

/-- C1 counterexample: this file passes the PRO consistency cross-check
(declared count 38402 equals (fileSize-16)/140 and the magic byte is 'P'),
yet it is not classified PRO, because its first two bytes also match the ATR
signature and the ATR check runs first. -/
theorem c1_pro_iff_counterexample :
    proConsistency c1File.size c1File = true ∧
      detectedType { emptyDisk with fileSize := c1File.size } c1File ≠
        some ImageType.PRO :=
  ⟨rfl, by decide⟩

/-- C1 (amended): for an attached file at least 16 bytes long (and below the
32-bit size limit), detection classifies it PRO exactly when the ATR
signature does not match, the header's declared sector count (high byte
times 256 plus low byte) equals (fileSize - 16) / (128 + sectorHeaderSize),
and the magic byte is ASCII 'P'; any file failing the cross-check is never
classified PRO. -/
theorem c1_pro_classification (st : DiskImage) (f : SdFile)
    (hfs : st.fileSize = f.size) (h16 : 16 ≤ f.size)
    (h32 : f.size < 4294967296) :
    detectedType st f = some ImageType.PRO ↔
      atrSigMatch f = false ∧
      f.byteAt 0 * 256 + f.byteAt 1 =
        (f.size - 16) / (SECTOR_SIZE_SD + proSectorHeaderSize) ∧
      f.byteAt 2 = 80 := by
  rw [detectedPRO_iff, hfs]
  have hmod : (f.size + (4294967296 - 16)) % 4294967296 = f.size - 16 := by
    omega
  unfold proConsistency
  rw [hmod]
  simp [Bool.and_eq_true, beq_iff_eq, and_assoc]

/-- C1 witness: the concrete consistent PRO file is classified PRO. -/
theorem c1_pro_classification_witness :
    detectedType { emptyDisk with fileSize := 156 } proFileC =
      some ImageType.PRO :=
  (c1_pro_classification { emptyDisk with fileSize := 156 } proFileC rfl
      (by decide) (by decide)).mpr ⟨rfl, by decide, rfl⟩

/-- A well-signed ATX file whose directory-location field at bytes 28-31
holds the bytes 00 00 01 00, i.e. the little-endian value 65536. -/
def c4File : SdFile :=
  { size := 1000
    byteAt := fun i =>
      if i = 0 then 65 else if i = 1 then 84 else if i = 2 then 56
      else if i = 3 then 88 else if i = 30 then 1 else 0
    filename := [] }

/-- C4: the ATX loader does not decode the 4-byte fields as little-endian
integers: on the directory-location bytes 00 00 01 00 it computes
0 + 0*256 + 1*512 + 0*768 = 512, where the little-endian reading
byte0 + byte1*2^8 + byte2*2^16 + byte3*2^24 gives 65536.  (The same
decode32quirk is used for the sector-entry start offsets, lines 324-327.) -/
theorem c4_directory_location_not_little_endian :
    atxSigMatch c4File = true ∧
    atxDirectoryLocation c4File = 512 ∧
    specDecode32le (c4File.byteAt 28) (c4File.byteAt 29) (c4File.byteAt 30)
      (c4File.byteAt 31) = 65536 ∧
    atxDirectoryLocation c4File ≠
      specDecode32le (c4File.byteAt 28) (c4File.byteAt 29) (c4File.byteAt 30)
        (c4File.byteAt 31) :=
  ⟨rfl, rfl, rfl, by decide⟩

/-- C6 counterexample: a file named with the mixed-case extension .Xfd (it
lower-cases to .xfd) of exactly the single-density 40-track size is NOT
classified XFD - the strcmp comparison only accepts .XFD or .xfd verbatim -
so detection fails entirely on it. -/
def c6File : SdFile :=
  { size := 92160
    byteAt := fun _ => 0
    filename := [71, 65, 77, 69, 46, 88, 102, 100] }

/-- C6 counterexample theorem: see c6File. -/
theorem c6_mixed_case_counterexample :
    (c6File.filename.map asciiToLower).drop (c6File.filename.length - 4) =
      [46, 120, 102, 100] ∧
    c6File.size = FORMAT_SS_SD_40 ∧
    detectedType { emptyDisk with fileSize := c6File.size } c6File = none :=
  ⟨by decide, rfl, by decide⟩

/-- C6 (amended): a file is classified XFD exactly when none of ATR, PRO,
ATX matched earlier, its last four filename bytes are exactly ".XFD" or
exactly ".xfd" (all-upper or all-lower; other capitalizations fail), and its
size is exactly the single-sided single-density 40-track image size; on a
match the loaded state has headerSize 0, sectorSize 128 and is writable. -/
theorem c6_xfd_classification (st : DiskImage) (f : SdFile)
    (hfs : st.fileSize = f.size) :
    (detectedType st f = some ImageType.XFD ↔
      atrSigMatch f = false ∧ proConsistency f.size f = false ∧
        atxSigMatch f = false ∧ xfdCheck f.size f = true) ∧
    (atrSigMatch f = false → proConsistency f.size f = false →
      atxSigMatch f = false → xfdCheck f.size f = true →
      loadFile st f = some { st with
        type := ImageType.XFD
        readOnly := false
        headerSize := 0
        sectorSize := SECTOR_SIZE_SD
        sectorReadDelay := 0 }) := by
  constructor
  · rw [← hfs]
    exact detectedXFD_iff st f
  · intro h1 h2 h3 h4
    rw [← hfs] at h2 h4
    simp [loadFile, h1, h2, h3, h4]

/-- A concrete well-formed XFD file: extension .xfd in lower case, exact
single-density 40-track size. -/
def xfdFileC : SdFile :=
  { size := 92160
    byteAt := fun _ => 0
    filename := [71, 65, 77, 69, 46, 120, 102, 100] }

/-- C6 witness: the concrete lower-case .xfd file of the right size is
classified XFD. -/
theorem c6_xfd_classification_witness :
    detectedType { emptyDisk with fileSize := 92160 } xfdFileC =
      some ImageType.XFD :=
  ((c6_xfd_classification { emptyDisk with fileSize := 92160 } xfdFileC rfl).1).mpr
    ⟨rfl, rfl, rfl, rfl⟩

/-- A file on which every detection check fails (wrong signatures, extension
.BIN), sized so that the stale-size effect is observable: 133136 =
FORMAT_SS_ED_40 + 16. -/
def c8File : SdFile :=
  { size := 133136
    byteAt := fun _ => 0
    filename := [68, 65, 84, 65, 46, 66, 73, 78] }

/-- A ready ATR-image state (header size 16, a handle attached, file size
92176) used as the pre-attach state of the failed re-attach. -/
def c8St : DiskImage :=
  { emptyDisk with
    type := ImageType.ATR
    headerSize := 16
    sectorSize := 128
    fileSize := 92176
    fileRef := some emptyFile }

/-- C8 counterexample: after a failed attach the handle is indeed gone, but
the instance does not return to its pre-attach observable state: m_fileSize
was overwritten with the rejected file's size before detection ran, and the
damage is visible through isEnhancedDensity, which flips from false to
true. -/
theorem c8_partial_state_counterexample :
    hasImage (setFile c8St c8File) = false ∧
    isEnhancedDensity c8St = false ∧
    isEnhancedDensity (setFile c8St c8File) = true :=
  ⟨rfl, rfl, rfl⟩

/-- C8 (amended): when detection fails, attach returns the instance to the
unattached state (hasImage() == false) and leaves every field unchanged
except fileSize, which keeps the rejected file's size (captured before
detection ran). -/
theorem c8_detection_failure_state (st : DiskImage) (f : SdFile)
    (h : loadFile { st with fileRef := some f, fileSize := f.size } f = none) :
    setFile st f = { st with fileRef := none, fileSize := f.size } ∧
    hasImage (setFile st f) = false := by
  have hs : setFile st f = { st with fileRef := none, fileSize := f.size } := by
    simp only [setFile, h]
  exact ⟨hs, by rw [hs]; rfl⟩

/-- C8 witness: the amended statement at the concrete failed attach. -/
theorem c8_detection_failure_state_witness :
    setFile c8St c8File = { c8St with fileRef := none, fileSize := c8File.size } ∧
    hasImage (setFile c8St c8File) = false :=
  c8_detection_failure_state c8St c8File rfl

/-- C10: attaching an ATX image assigns type, readOnly, sectorReadDelay,
sectorSize and phantomFlip but never headerSize, which keeps its pre-attach
value; consequently isEnhancedDensity and isDoubleDensity compare the new
file's size against the reference sizes plus that stale headerSize. -/
theorem c10_atx_stale_headerSize (st : DiskImage) (f : SdFile)
    (hA : atrSigMatch f = false) (hP : proConsistency f.size f = false)
    (hX : atxSigMatch f = true) :
    (setFile st f).type = ImageType.ATX ∧
    (setFile st f).headerSize = st.headerSize ∧
    (setFile st f).readOnly = true ∧
    (setFile st f).sectorSize = 128 ∧
    (setFile st f).sectorReadDelay = 0 ∧
    (setFile st f).phantomFlip = false ∧
    isEnhancedDensity (setFile st f) =
      ((f.size == FORMAT_SS_ED_35 + st.headerSize) ||
        (f.size == FORMAT_SS_ED_40 + st.headerSize)) ∧
    isDoubleDensity (setFile st f) =
      ((f.size == FORMAT_SS_DD_35 + st.headerSize) ||
        (f.size == FORMAT_SS_DD_40 + st.headerSize)) := by
  refine ⟨?_, ?_, ?_, ?_, ?_, ?_, ?_, ?_⟩ <;>
    simp [setFile, loadFile, hA, hP, hX, atxLoad, isEnhancedDensity,
      isDoubleDensity]

/-- An ATX-signed file of size FORMAT_SS_ED_40 + 16 = 133136 bytes. -/
def c10File : SdFile :=
  { size := 133136
    byteAt := fun i =>
      if i = 0 then 65 else if i = 1 then 84 else if i = 2 then 56
      else if i = 3 then 88 else 0
    filename := [] }

/-- A pre-attach state whose stale headerSize is 16. -/
def c10St : DiskImage := { emptyDisk with headerSize := 16 }

/-- C10 witness: attaching the concrete ATX file over a state with
headerSize 16 leaves headerSize at 16 and makes isEnhancedDensity compare
against the stale 16-byte header offset (here it comes out true because
133136 = FORMAT_SS_ED_40 + 16). -/
theorem c10_atx_stale_headerSize_witness :
    (setFile c10St c10File).type = ImageType.ATX ∧
    (setFile c10St c10File).headerSize = c10St.headerSize ∧
    (setFile c10St c10File).readOnly = true ∧
    (setFile c10St c10File).sectorSize = 128 ∧
    (setFile c10St c10File).sectorReadDelay = 0 ∧
    (setFile c10St c10File).phantomFlip = false ∧
    isEnhancedDensity (setFile c10St c10File) =
      ((c10File.size == FORMAT_SS_ED_35 + c10St.headerSize) ||
        (c10File.size == FORMAT_SS_ED_40 + c10St.headerSize)) ∧
    isDoubleDensity (setFile c10St c10File) =
      ((c10File.size == FORMAT_SS_DD_35 + c10St.headerSize) ||
        (c10File.size == FORMAT_SS_DD_40 + c10St.headerSize)) :=
  c10_atx_stale_headerSize c10St c10File rfl rfl rfl

set_option maxRecDepth 4096 in
/-- After formatting (header write then a zero body of length L), reading
sector 1 of an ATR-state image returns a packet of length sectorSize whose
bytes are all zero. -/
theorem formatted_read_zero (st : DiskImage) (f : SdFile) (L : Nat)
    (hT : st.type = ImageType.ATR) (hH : st.headerSize = 16)
    (hS : st.sectorSize ≤ L) :
    (getSectorData st
        (fileWrite (fileWrite f 0 (atrFormatHeaderByte L) 16) 16 (fun _ => 0) L)
        1).1.length = st.sectorSize ∧
    (getSectorData st
        (fileWrite (fileWrite f 0 (atrFormatHeaderByte L) 16) 16 (fun _ => 0) L)
        1).1.error = false ∧
    ∀ b ∈ (getSectorData st
        (fileWrite (fileWrite f 0 (atrFormatHeaderByte L) 16) 16 (fun _ => 0) L)
        1).1.data, b = 0 := by
  refine ⟨by simp [getSectorData, hT], by simp [getSectorData, hT], ?_⟩
  intro b hb
  simp only [getSectorData, hT, reduceCtorEq, if_false, readBytes, hH,
    List.mem_map, List.mem_range] at hb
  obtain ⟨i, hi, hbe⟩ := hb
  have hiL : i < L := lt_of_lt_of_le hi hS
  rw [← hbe]
  simp only [fileWrite]
  rw [if_pos (by omega)]

/-- C9: on a writable ATR image (header size 16, declared sector size at
most the formatted body length), formatImage succeeds and a subsequent
readSector(1) yields a packet whose length equals the image's sectorSize,
with no error, and whose data bytes are all zero. -/
theorem c9_format_then_read_zero (st : DiskImage) (f : SdFile) (density : Nat)
    (hT : st.type = ImageType.ATR) (hRO : st.readOnly = false)
    (hH : st.headerSize = 16) (hS : st.sectorSize ≤ FORMAT_SS_SD_40) :
    ∃ f2, format st f density = some f2 ∧
      (getSectorData st f2 1).1.length = st.sectorSize ∧
      (getSectorData st f2 1).1.error = false ∧
      ∀ b ∈ (getSectorData st f2 1).1.data, b = 0 := by
  by_cases hd : density = DENSITY_ED
  · refine ⟨fileWrite (fileWrite f 0 (atrFormatHeaderByte FORMAT_SS_ED_40) 16) 16
      (fun _ => 0) FORMAT_SS_ED_40, ?_, ?_⟩
    · simp [format, hRO, hT, hd]
    · exact formatted_read_zero st f FORMAT_SS_ED_40 hT hH
        (le_trans hS (by norm_num [FORMAT_SS_SD_40, FORMAT_SS_ED_40]))
  · refine ⟨fileWrite (fileWrite f 0 (atrFormatHeaderByte FORMAT_SS_SD_40) 16) 16
      (fun _ => 0) FORMAT_SS_SD_40, ?_, ?_⟩
    · simp [format, hRO, hT, hd]
    · exact formatted_read_zero st f FORMAT_SS_SD_40 hT hH hS

/-- A concrete ready writable standard-density ATR state. -/
def c9St : DiskImage :=
  { emptyDisk with
    type := ImageType.ATR
    headerSize := 16
    sectorSize := 128
    fileSize := 92176 }

/-- C9 witness: formatting the concrete ATR image (standard density) and
reading sector 1 back. -/
theorem c9_format_then_read_zero_witness :
    ∃ f2, format c9St emptyFile 0 = some f2 ∧
      (getSectorData c9St f2 1).1.length = c9St.sectorSize ∧
      (getSectorData c9St f2 1).1.error = false ∧
      ∀ b ∈ (getSectorData c9St f2 1).1.data, b = 0 :=
  c9_format_then_read_zero c9St emptyFile 0 rfl rfl rfl (by decide)

end SIO2Arduino
